import Mathlib

/-!
Verification development for the parameter-group core of an off-policy
actor-critic agent: the class `PolicyWithQs` of `policy.py`.

The development shallowly embeds the class.  Module parameters are
ordered lists of parameter tensors; each tensor is a list of scalars.
Scalar weight arithmetic (float32 in the original) is idealised as exact
rational arithmetic for the structural claims, and as real arithmetic for
the squashed-Gaussian action mathematics, which uses `tanh`, `log` and
`exp`.  The stochastic sample drawn from the Normal distribution is an
explicit argument of the embedding, externalising the nondeterminism.

External collaborators (the `MLPNet`/`AlphaModel` modules of `model.py`,
the Keras optimizers, the TensorFlow checkpoint store and the
distribution library) are modelled from the words of the specification,
as recorded in the doc comment of each such definition.
-/

namespace PolicyWithQs

/-- A module parameter snapshot: the ordered sequence of parameter
tensors returned by `get_weights` / `trainable_weights`, each tensor a
list of scalars (float32 idealised as `ℚ`). -/
abbrev Weights := List (List ℚ)

/-- The fields of `args` read by `PolicyWithQs`: the configuration
flags, the entropy-coefficient mode string (`alpha`), the delayed-update
period, the soft-update rate `tau` and the determinism flag. -/
structure Args where
  policy_only : Bool
  double_Q : Bool
  target : Bool
  alpha : String
  delay_update : Nat
  tau : ℚ
  deterministic_policy : Bool
  deriving DecidableEq

/-- The named modules of the group.  The constructor always creates all
six networks as attributes; the configuration decides which of them are
placed in the `models` and `target_models` tuples. -/
inductive Role where
  | policy
  | policy_target
  | Q1
  | Q1_target
  | Q2
  | Q2_target
  | alpha_model
  deriving DecidableEq

/-- The mutable state of one constructed `PolicyWithQs` group: the
configuration, the parameters of every module attribute, and the step
counter of every optimizer. -/
structure GroupState where
  args : Args
  policy_w : Weights
  policy_target_w : Weights
  Q1_w : Weights
  Q1_target_w : Weights
  Q2_w : Weights
  Q2_target_w : Weights
  alpha_w : Weights
  policy_opt_step : Nat
  Q1_opt_step : Nat
  Q2_opt_step : Nat
  alpha_opt_step : Nat
  deriving DecidableEq

/-- The ordered trainable-module tuple `self.models` assembled by
`__init__`: the flag-dependent base tuple, extended by the alpha module
whenever `args.alpha == 'auto'` (that extension is outside the
`policy_only` branch in the source). -/
def modelsList (a : Args) : List Role :=
  (if a.policy_only then [Role.policy]
   else if a.double_Q then [Role.Q1, Role.Q2, Role.policy]
   else if a.target then [Role.Q1, Role.policy]
   else [Role.Q1, Role.policy])
  ++ (if a.alpha = "auto" then [Role.alpha_model] else [])

/-- The ordered target-module tuple `self.target_models` assembled by
`__init__`. -/
def targetModelsList (a : Args) : List Role :=
  if a.policy_only then []
  else if a.double_Q then [Role.Q1_target, Role.Q2_target, Role.policy_target]
  else if a.target then [Role.Q1_target, Role.policy_target]
  else []

/-- The ordered optimizer tuple `self.optimizers` assembled by
`__init__`, identified by the role of the module each optimizer owns;
the alpha optimizer is appended whenever `args.alpha == 'auto'`. -/
def optimizersList (a : Args) : List Role :=
  (if a.policy_only then [Role.policy]
   else if a.double_Q then [Role.Q1, Role.Q2, Role.policy]
   else if a.target then [Role.Q1, Role.policy]
   else [Role.Q1, Role.policy])
  ++ (if a.alpha = "auto" then [Role.alpha_model] else [])

/-- Constructor core of `PolicyWithQs.__init__`.  The freshly built
networks receive externally supplied initial parameters (random
initialisation lives in the external module library).  `Q1_target` and
`Q2_target` are immediately overwritten with the live critic parameters
via `set_weights(get_weights())`; `policy_target` is not, so it keeps
`policy_target_init`.  All optimizer step counters start at zero.  The
source asserts `args.target` when `args.double_Q` holds, but only inside
the branch where `args.policy_only` is false; a failing assert is
modelled as `none`. -/
def init (a : Args)
    (policy_init policy_target_init Q1_init _Q1_target_init
     Q2_init _Q2_target_init alpha_init : Weights) : Option GroupState :=
  if ¬ a.policy_only ∧ a.double_Q ∧ ¬ a.target then none
  else some {
    args := a
    policy_w := policy_init
    policy_target_w := policy_target_init
    Q1_w := Q1_init
    Q1_target_w := Q1_init
    Q2_w := Q2_init
    Q2_target_w := Q2_init
    alpha_w := alpha_init
    policy_opt_step := 0
    Q1_opt_step := 0
    Q2_opt_step := 0
    alpha_opt_step := 0 }

/-- Modelled from the spec: a module (external collaborator of
`model.py`, absent from the provided sources) exposes its parameters as
an ordered sequence of numeric tensors; `get_weights` reads that
sequence. -/
def weightsOf (s : GroupState) : Role → Weights
  | Role.policy => s.policy_w
  | Role.policy_target => s.policy_target_w
  | Role.Q1 => s.Q1_w
  | Role.Q1_target => s.Q1_target_w
  | Role.Q2 => s.Q2_w
  | Role.Q2_target => s.Q2_target_w
  | Role.alpha_model => s.alpha_w

/-- Modelled from the spec: `set_weights` of a module replaces its
parameter sequence wholesale. -/
def setRoleWeights (s : GroupState) (r : Role) (w : Weights) : GroupState :=
  match r with
  | Role.policy => { s with policy_w := w }
  | Role.policy_target => { s with policy_target_w := w }
  | Role.Q1 => { s with Q1_w := w }
  | Role.Q1_target => { s with Q1_target_w := w }
  | Role.Q2 => { s with Q2_w := w }
  | Role.Q2_target => { s with Q2_target_w := w }
  | Role.alpha_model => { s with alpha_w := w }

/-- The optimizer step counter associated with a trainable role (target
modules own no optimizer). -/
def optStepOf (s : GroupState) : Role → Nat
  | Role.policy => s.policy_opt_step
  | Role.Q1 => s.Q1_opt_step
  | Role.Q2 => s.Q2_opt_step
  | Role.alpha_model => s.alpha_opt_step
  | _ => 0

/-- `get_weights`: the snapshots of the trainable modules in order,
followed by the snapshots of the target modules in order. -/
def get_weights (s : GroupState) : List Weights :=
  (modelsList s.args).map (weightsOf s) ++ (targetModelsList s.args).map (weightsOf s)

/-- The loop body of `set_weights`: entry `i` goes to `models[i]` when
`i < len(models)`, otherwise to `target_models[i - len(models)]`.  An
index beyond both tuples raises in the original; that unreachable case
is modelled as a no-op. -/
def setWeightsAux (ms ts : List Role) : GroupState → Nat → List Weights → GroupState
  | s, _, [] => s
  | s, i, w :: rest =>
    let s2 :=
      if i < ms.length then setRoleWeights s (ms.getD i Role.policy) w
      else
        match ts.get? (i - ms.length) with
        | some r => setRoleWeights s r w
        | none => s
    setWeightsAux ms ts s2 (i + 1) rest

/-- `set_weights`: positional restoration of a snapshot sequence.  The
`models` and `target_models` tuples are fixed at construction, so they
are read once. -/
def set_weights (s : GroupState) (ws : List Weights) : GroupState :=
  setWeightsAux (modelsList s.args) (targetModelsList s.args) s 0 ws

/-- Modelled from the spec: the optimizer (Keras Adam) is an external
black box consuming `(gradient, parameter)` pairs produced by `zip`,
which truncates to the shorter of the two sequences; parameters beyond
the truncation point are untouched, surplus gradients are dropped.  The
opaque per-tensor update is represented by the elementwise step
`w - g`. -/
def optApply (grads ws : Weights) : Weights :=
  List.zipWith (fun g w => List.zipWith (fun wi gi => wi - gi) w g) grads ws
    ++ ws.drop grads.length

/-- One `policy_optimizer.apply_gradients` call: mutate the paired
policy parameters and advance the optimizer step counter by one. -/
def applyPolicyOpt (s : GroupState) (g : Weights) : GroupState :=
  { s with policy_w := optApply g s.policy_w,
           policy_opt_step := s.policy_opt_step + 1 }

/-- One `Q1_optimizer.apply_gradients` call. -/
def applyQ1Opt (s : GroupState) (g : Weights) : GroupState :=
  { s with Q1_w := optApply g s.Q1_w, Q1_opt_step := s.Q1_opt_step + 1 }

/-- One `Q2_optimizer.apply_gradients` call. -/
def applyQ2Opt (s : GroupState) (g : Weights) : GroupState :=
  { s with Q2_w := optApply g s.Q2_w, Q2_opt_step := s.Q2_opt_step + 1 }

/-- One `alpha_optimizer.apply_gradients` call. -/
def applyAlphaOpt (s : GroupState) (g : Weights) : GroupState :=
  { s with alpha_w := optApply g s.alpha_w,
           alpha_opt_step := s.alpha_opt_step + 1 }

/-- The elementwise soft-update blend of one tensor pair:
`tau * source + (1 - tau) * target`. -/
def tensorBlend (tau : ℚ) (source target : List ℚ) : List ℚ :=
  List.zipWith (fun si ti => tau * si + (1 - tau) * ti) source target

/-- The per-snapshot soft-update list comprehension shared by the three
target updaters. -/
def blend (tau : ℚ) (source target : Weights) : Weights :=
  List.zipWith (tensorBlend tau) source target

/-- `update_Q1_target`: blend the live critic-1 parameters into its
target with rate `args.tau`. -/
def update_Q1_target (s : GroupState) : GroupState :=
  { s with Q1_target_w := blend s.args.tau s.Q1_w s.Q1_target_w }

/-- `update_Q2_target`. -/
def update_Q2_target (s : GroupState) : GroupState :=
  { s with Q2_target_w := blend s.args.tau s.Q2_w s.Q2_target_w }

/-- `update_policy_target`. -/
def update_policy_target (s : GroupState) : GroupState :=
  { s with policy_target_w := blend s.args.tau s.policy_w s.policy_target_w }

/-- `apply_gradients(iteration, grads)`: slice the flat gradient list by
counted tensor lengths and route each slice.  Critic optimizers apply on
every call; the policy optimizer, the target updates and the alpha
optimizer apply only when `iteration % delay_update == 0`.  The slice
arithmetic mirrors the Python slices, which clamp rather than fail. -/
def apply_gradients (s : GroupState) (iteration : Nat) (grads : Weights) : GroupState :=
  if s.args.policy_only then
    let policy_grad := grads
    applyPolicyOpt s policy_grad
  else if s.args.double_Q then
    let q_weights_len := s.Q1_w.length
    let policy_weights_len := s.policy_w.length
    let q1_grad := grads.take q_weights_len
    let q2_grad := (grads.drop q_weights_len).take q_weights_len
    let policy_grad := (grads.drop (2 * q_weights_len)).take policy_weights_len
    let s1 := applyQ1Opt s q1_grad
    let s2 := applyQ2Opt s1 q2_grad
    if iteration % s.args.delay_update = 0 then
      let s3 := applyPolicyOpt s2 policy_grad
      let s4 := update_policy_target s3
      let s5 := update_Q1_target s4
      let s6 := update_Q2_target s5
      if s.args.alpha = "auto" then
        applyAlphaOpt s6 (grads.drop (grads.length - 1))
      else s6
    else s2
  else
    let q_weights_len := s.Q1_w.length
    let policy_weights_len := s.policy_w.length
    let q1_grad := grads.take q_weights_len
    let policy_grad := (grads.drop q_weights_len).take policy_weights_len
    let s1 := applyQ1Opt s q1_grad
    if iteration % s.args.delay_update = 0 then
      let s2 := applyPolicyOpt s1 policy_grad
      let s3 :=
        if s.args.alpha = "auto" then
          applyAlphaOpt s2 (grads.drop (grads.length - 1))
        else s2
      if s.args.target then update_Q1_target (update_policy_target s3) else s3
    else s1

/-- An object held by a checkpoint: a module parameter snapshot or an
optimizer internal state (its step counter, in this model). -/
inductive CkptObj where
  | module (w : Weights)
  | optState (step : Nat)
  deriving DecidableEq

/-- The named-object dictionary a checkpoint stores: stable unique name
to in-memory object. -/
abbrev CkptDict := List (String × CkptObj)

/-- Modelled from the spec: the checkpoint storage is an external
named-object store.  `tf.train.Checkpoint.save(p)` writes the checkpoint
under the path `p` suffixed by the save counter, which is `1` for the
fresh `Checkpoint` object built on each `save_weights` call, so the
stored key is `p ++ "-1"`; `restore(path)` reads the object stored at
exactly `path`. -/
structure Store where
  entries : List (String × CkptDict)

/-- First save of a fresh checkpoint object at path `p`: store the
dictionary under `p ++ "-1"`. -/
def Store.save (st : Store) (p : String) (d : CkptDict) : Store :=
  ⟨(p ++ "-1", d) :: st.entries⟩

/-- Restore: read the object stored at exactly the given path. -/
def Store.restore (st : Store) (path : String) : Option CkptDict :=
  st.entries.lookup path

/-- The `name` attribute each network is built with in `__init__`. -/
def moduleName : Role → String
  | Role.policy => "policy"
  | Role.policy_target => "policy_target"
  | Role.Q1 => "Q1"
  | Role.Q1_target => "Q1_target"
  | Role.Q2 => "Q2"
  | Role.Q2_target => "Q2_target"
  | Role.alpha_model => "alpha"

/-- The `name` each optimizer is built with in `__init__`. -/
def optName : Role → String
  | Role.policy => "policy_adam_opt"
  | Role.Q1 => "Q1_adam_opt"
  | Role.Q2 => "Q2_adam_opt"
  | Role.alpha_model => "alpha_adam_opt"
  | _ => ""

/-- The keyword dictionary both `save_weights` and `load_weights` build:
`model_pairs + target_model_pairs + optimizer_pairs`, each entry keyed
by the name of the module or optimizer. -/
def ckptDict (s : GroupState) : CkptDict :=
  (modelsList s.args).map (fun r => (moduleName r, CkptObj.module (weightsOf s r)))
    ++ (targetModelsList s.args).map (fun r => (moduleName r, CkptObj.module (weightsOf s r)))
    ++ (optimizersList s.args).map (fun r => (optName r, CkptObj.optState (optStepOf s r)))

/-- `save_weights(save_dir, iteration)`: build the named dictionary of
the full group and save it at the path `save_dir + '/ckpt_ite' +
str(iteration)`. -/
def save_weights (store : Store) (s : GroupState) (save_dir : String) (iteration : Nat) : Store :=
  store.save (save_dir ++ "/ckpt_ite" ++ toString iteration) (ckptDict s)

/-- `load_weights(load_dir, iteration)`: restore from the path
`load_dir + '/ckpt_ite' + str(iteration) + '-1'`, yielding the stored
named dictionary. -/
def load_weights (store : Store) (load_dir : String) (iteration : Nat) : Option CkptDict :=
  store.restore (load_dir ++ "/ckpt_ite" ++ toString iteration ++ "-1")

/-- Modelled from the spec: the log-density of the external distribution
library for a Normal distribution with mean `mu` and standard deviation
`sigma`, evaluated at `x`. -/
noncomputable def normalLogProb (mu sigma x : ℝ) : ℝ :=
  -((x - mu) ^ 2 / (2 * sigma ^ 2)) - Real.log sigma - Real.log (Real.sqrt (2 * Real.pi))

/-- `_logits2action(logits)`, the nondeterministic sample made explicit:
split `logits` evenly into `mean` and `log_std`; deterministic mode
returns `(mean, 0)` with no squashing; stochastic mode squashes the
pre-squash Normal sample through `tanh` and sums, over the action
dimensions, the per-dimension Normal log-density minus
`log(1 - tanh(sample)^2)` plus the constant `1e-6` — the constant is
added to each summand outside the logarithm, exactly as the source
writes it. -/
noncomputable def logits2action (deterministic : Bool) (logits sample : List ℝ) :
    List ℝ × ℝ :=
  let mean := logits.take (logits.length / 2)
  let log_std := logits.drop (logits.length / 2)
  if deterministic then (mean, 0)
  else
    let logps := List.zipWith (fun p x => normalLogProb p.1 (Real.exp p.2) x)
      (mean.zip log_std) sample
    let action := sample.map Real.tanh
    let logp := (List.zipWith
      (fun lp ai => lp - Real.log (1 - ai ^ 2) + 1e-6) logps action).sum
    (action, logp)

/-- `compute_action(obs)`: run the policy network (an external function
approximator) on the observation and convert the logits. -/
noncomputable def compute_action (policyNet : List ℝ → List ℝ) (a : Args)
    (obs sample : List ℝ) : List ℝ × ℝ :=
  logits2action a.deterministic_policy (policyNet obs) sample

/-- `compute_target_action(obs)`: same conversion applied to the target
policy network output. -/
noncomputable def compute_target_action (policyTargetNet : List ℝ → List ℝ) (a : Args)
    (obs sample : List ℝ) : List ℝ × ℝ :=
  logits2action a.deterministic_policy (policyTargetNet obs) sample

/-- Follows the words of the spec (section 4.2), for comparison with the
source formula: the stochastic log-probability is
`sum_over_dims(log_prob_normal(a_raw) - log(1 - tanh(a_raw)^2 + eps))`
with `eps = 1e-6` added inside the argument of the logarithm. -/
noncomputable def spec_stochastic_logp (mean log_std sample : List ℝ) : ℝ :=
  (List.zipWith
    (fun p x => normalLogProb p.1 (Real.exp p.2) x - Real.log (1 - Real.tanh x ^ 2 + 1e-6))
    (mean.zip log_std) sample).sum

/-!  General list lemmas shared by the claim proofs. -/

theorem getD_zipWith_of_lt {α β γ : Type} (f : α → β → γ) (l₁ : List α) (l₂ : List β)
    (d : γ) (d₁ : α) (d₂ : β) (i : ℕ) (h₁ : i < l₁.length) (h₂ : i < l₂.length) :
    (List.zipWith f l₁ l₂).getD i d = f (l₁.getD i d₁) (l₂.getD i d₂) := by
  induction l₁ generalizing l₂ i with
  | nil => simp at h₁
  | cons a l ih =>
    cases l₂ with
    | nil => simp at h₂
    | cons b t =>
      cases i with
      | zero => simp
      | succ n =>
        simp only [List.zipWith_cons_cons, List.getD_cons_succ]
        exact ih t n (by simpa using h₁) (by simpa using h₂)

theorem tensorBlend_one (s t : List ℚ) (h : s.length = t.length) : tensorBlend 1 s t = s := by
  induction s generalizing t with
  | nil => simp [tensorBlend]
  | cons a l ih =>
    cases t with
    | nil => simp at h
    | cons b tl =>
      simp only [tensorBlend, List.zipWith_cons_cons, List.cons.injEq]
      exact ⟨by ring, ih tl (by simpa using h)⟩

theorem tensorBlend_zero (s t : List ℚ) (h : s.length = t.length) : tensorBlend 0 s t = t := by
  induction s generalizing t with
  | nil =>
    cases t with
    | nil => rfl
    | cons b tl => simp at h
  | cons a l ih =>
    cases t with
    | nil => simp at h
    | cons b tl =>
      simp only [tensorBlend, List.zipWith_cons_cons, List.cons.injEq]
      exact ⟨by ring, ih tl (by simpa using h)⟩

theorem blend_one (src tgt : Weights)
    (h : List.Forall₂ (fun u v => u.length = v.length) src tgt) :
    blend 1 src tgt = src := by
  induction h with
  | nil => rfl
  | cons hab _ ih =>
    simp only [blend, List.zipWith_cons_cons, List.cons.injEq]
    exact ⟨tensorBlend_one _ _ hab, ih⟩

theorem blend_zero (src tgt : Weights)
    (h : List.Forall₂ (fun u v => u.length = v.length) src tgt) :
    blend 0 src tgt = tgt := by
  induction h with
  | nil => rfl
  | cons hab _ ih =>
    simp only [blend, List.zipWith_cons_cons, List.cons.injEq]
    exact ⟨tensorBlend_zero _ _ hab, ih⟩

theorem blend_getD (tau : ℚ) (src tgt : Weights)
    (h : List.Forall₂ (fun u v => u.length = v.length) src tgt)
    (i j : ℕ) (hi : i < src.length) (hj : j < (src.getD i []).length) :
    ((blend tau src tgt).getD i []).getD j 0 =
      tau * ((src.getD i []).getD j 0) + (1 - tau) * ((tgt.getD i []).getD j 0) := by
  have hlen := h.length_eq
  have hi2 : i < tgt.length := hlen ▸ hi
  have hinner : (src.getD i []).length = (tgt.getD i []).length := by
    rw [List.getD_eq_getElem _ _ hi, List.getD_eq_getElem _ _ hi2]
    have hpt := (List.forall₂_iff_get.mp h).2 i hi hi2
    simpa using hpt
  have houter : (blend tau src tgt).getD i [] =
      tensorBlend tau (src.getD i []) (tgt.getD i []) :=
    getD_zipWith_of_lt (tensorBlend tau) src tgt [] [] [] i hi hi2
  rw [houter]
  exact getD_zipWith_of_lt _ _ _ 0 0 0 j hj (hinner ▸ hj)

theorem optApply_length (g ws : Weights) : (optApply g ws).length = ws.length := by
  simp only [optApply, List.length_append, List.length_zipWith, List.length_drop]
  omega

theorem optApply_getElem?_of_ge (g ws : Weights) (i : ℕ) (h : g.length ≤ i) :
    (optApply g ws)[i]? = ws[i]? := by
  induction g generalizing ws i with
  | nil => simp [optApply]
  | cons a g ih =>
    cases ws with
    | nil => simp [optApply]
    | cons w ws =>
      cases i with
      | zero => simp at h
      | succ n =>
        simp only [optApply, List.zipWith_cons_cons, List.length_cons,
          List.drop_succ_cons, List.cons_append, List.getElem?_cons_succ]
        exact ih ws n (by simpa using h)

/-!  Claim C1.  The source line
`logp = reduce_sum(logps - log(1 - square(action)) + 1e-6, axis=-1)`
adds the constant `1e-6` to each summand outside the logarithm, so the
returned log-probability differs from the claimed/specified
`sum(log_prob_normal - log(1 - tanh^2 + 1e-6))`, in which the constant
stabilises the logarithm argument; outside the log it stabilises
nothing.  The two formulas already disagree at the pre-squash sample 0
with mean 0 and log-std 0. -/

/-- C1: at the concrete stochastic input `logits = [0, 0]` (so mean 0,
log-std 0) and pre-squash sample `[0]`, the action returned by the code
is `tanh` of the sample, the code log-probability evaluates to
`normalLogProb 0 (exp 0) 0 + 1e-6`, the spec formula evaluates to
`normalLogProb 0 (exp 0) 0 - log(1 + 1e-6)`, and the two values are not
equal: the code does not return the log-probability the claim states. -/
theorem claim1_epsilon_outside_log :
    (logits2action false [0, 0] [0]).1 = [Real.tanh 0] ∧
    (logits2action false [0, 0] [0]).2 = normalLogProb 0 (Real.exp 0) 0 + 1e-6 ∧
    spec_stochastic_logp [0] [0] [0] = normalLogProb 0 (Real.exp 0) 0 - Real.log (1 + 1e-6) ∧
    (logits2action false [0, 0] [0]).2 ≠ spec_stochastic_logp [0] [0] [0] := by
  have hact : (logits2action false [0, 0] [0]).1 = [Real.tanh 0] := by
    simp [logits2action]
  have hcode : (logits2action false [0, 0] [0]).2 =
      normalLogProb 0 (Real.exp 0) 0 + 1e-6 := by
    simp [logits2action, Real.tanh_zero, Real.log_one]
  have hspec : spec_stochastic_logp [0] [0] [0] =
      normalLogProb 0 (Real.exp 0) 0 - Real.log (1 + 1e-6) := by
    simp [spec_stochastic_logp, Real.tanh_zero]
  refine ⟨hact, hcode, hspec, ?_⟩
  rw [hcode, hspec]
  have hl : 0 < Real.log (1 + 1e-6) := Real.log_pos (by norm_num)
  have he : (0:ℝ) < 1e-6 := by norm_num
  intro hcontra
  nlinarith

/-!  Claim C2.  In `__init__` the critic targets are synchronised with
`Q1_target.set_weights(Q1.get_weights())` (and alike for Q2), but no
such call exists for `policy_target`: it keeps its own fresh random
initial parameters.  The claim as stated fails for the policy target. -/

/-- Concrete configuration for the C2 counterexample: single critic
with target networks, so `policy_target` is a member of the
target-module tuple. -/
def a2ex : Args :=
  { policy_only := false, double_Q := false, target := true, alpha := "fixed",
    delay_update := 1, tau := 1, deterministic_policy := false }

/-- The state `__init__` produces for `a2ex` when the external random
initialisation hands `policy` the parameters `[[1]]` and
`policy_target` the distinct parameters `[[2]]`. -/
def g2ex : GroupState :=
  { args := a2ex, policy_w := [[1]], policy_target_w := [[2]],
    Q1_w := [[3]], Q1_target_w := [[3]], Q2_w := [[5]], Q2_target_w := [[5]],
    alpha_w := [[7]], policy_opt_step := 0, Q1_opt_step := 0, Q2_opt_step := 0,
    alpha_opt_step := 0 }

/-- C2 counterexample: in a constructed group whose target-module tuple
contains the policy target, the policy target parameters immediately
after construction are not a copy of the live policy parameters — they
are the independent initial values the network was built with. -/
theorem claim2_counterexample :
    Role.policy_target ∈ targetModelsList a2ex ∧
    init a2ex [[1]] [[2]] [[3]] [[4]] [[5]] [[6]] [[7]] = some g2ex ∧
    g2ex.policy_target_w ≠ g2ex.policy_w := by
  refine ⟨by decide, by decide, by decide⟩

/-- C2 amended: immediately after a successful construction the critic
targets are exact copies of their live counterparts
(`Q1_target = Q1`, `Q2_target = Q2`), while the policy and the policy
target keep their own independent initial parameters — the policy
target is not synchronised at construction. -/
theorem claim2_target_copies (a : Args)
    (w1 w2 w3 w4 w5 w6 w7 : Weights) (s : GroupState)
    (h : init a w1 w2 w3 w4 w5 w6 w7 = some s) :
    s.Q1_target_w = s.Q1_w ∧ s.Q2_target_w = s.Q2_w ∧
    s.policy_w = w1 ∧ s.policy_target_w = w2 := by
  unfold init at h
  split at h
  · exact absurd h (by simp)
  · cases Option.some.inj h
    exact ⟨rfl, rfl, rfl, rfl⟩

/-- C2 witness: the amended statement applied to the concrete
construction of `g2ex`. -/
theorem claim2_target_copies_witness :
    g2ex.Q1_target_w = g2ex.Q1_w ∧ g2ex.Q2_target_w = g2ex.Q2_w ∧
    g2ex.policy_w = [[1]] ∧ g2ex.policy_target_w = [[2]] :=
  claim2_target_copies a2ex [[1]] [[2]] [[3]] [[4]] [[5]] [[6]] [[7]] g2ex (by decide)

/-!  Claim C3.  `apply_gradients` never checks the length of `grads`:
the Python slices clamp and `zip` truncates to the shorter sequence, so
a gradient list shorter than the trainable-weight tensor count of the
routed module is applied to a prefix of the weights and the call
succeeds — there is no fatal error. -/

/-- Concrete `policy_only` group for the C3 counterexample: the policy
owns two parameter tensors. -/
def s3ex : GroupState :=
  { args := { policy_only := true, double_Q := false, target := false,
              alpha := "fixed", delay_update := 1, tau := 1,
              deterministic_policy := false },
    policy_w := [[10], [20]], policy_target_w := [], Q1_w := [], Q1_target_w := [],
    Q2_w := [], Q2_target_w := [], alpha_w := [],
    policy_opt_step := 0, Q1_opt_step := 0, Q2_opt_step := 0, alpha_opt_step := 0 }

/-- C3 counterexample: calling `apply_gradients` with one gradient
tensor against a policy holding two trainable tensors does not fail: it
silently truncates, updating only the first tensor (the optimizer step
`10 - 1 = 9` under the modelled update) and leaving the second tensor
`[20]` untouched, while the optimizer still advances one step. -/
theorem claim3_counterexample :
    ([[1]] : Weights).length ≠ s3ex.policy_w.length ∧
    apply_gradients s3ex 0 [[1]] =
      { s3ex with policy_w := [[9], [20]], policy_opt_step := 1 } := by
  refine ⟨by decide, ?_⟩
  simp only [apply_gradients, s3ex, applyPolicyOpt, optApply]
  norm_num

/-- C3 amended: in a `policy_only` group, `apply_gradients` performs no
length validation.  The call always succeeds: the policy keeps its
tensor count, every weight tensor at an index at or beyond
`grads.length` is left exactly unchanged (a short `grads` updates only
the matching prefix; surplus gradients are dropped by `zip`), and the
policy optimizer advances one step. -/
theorem claim3_silent_truncation (s : GroupState) (iteration : ℕ) (grads : Weights)
    (hp : s.args.policy_only = true) :
    (apply_gradients s iteration grads).policy_w.length = s.policy_w.length ∧
    (∀ i, grads.length ≤ i →
      (apply_gradients s iteration grads).policy_w[i]? = s.policy_w[i]?) ∧
    (apply_gradients s iteration grads).policy_opt_step = s.policy_opt_step + 1 := by
  refine ⟨?_, ?_, ?_⟩
  · simp only [apply_gradients, hp, if_true, applyPolicyOpt]
    exact optApply_length grads s.policy_w
  · intro i hi
    simp only [apply_gradients, hp, if_true, applyPolicyOpt]
    exact optApply_getElem?_of_ge grads s.policy_w i hi
  · simp [apply_gradients, hp, applyPolicyOpt]

/-- C3 witness: the amended statement applied to the concrete group
`s3ex` with a one-tensor gradient list, the universally quantified index
instantiated at 1 (the untouched second tensor). -/
theorem claim3_silent_truncation_witness :
    (apply_gradients s3ex 0 [[1]]).policy_w.length = s3ex.policy_w.length ∧
    (apply_gradients s3ex 0 [[1]]).policy_w[1]? = s3ex.policy_w[1]? ∧
    (apply_gradients s3ex 0 [[1]]).policy_opt_step = s3ex.policy_opt_step + 1 :=
  ⟨(claim3_silent_truncation s3ex 0 [[1]] rfl).1,
   (claim3_silent_truncation s3ex 0 [[1]] rfl).2.1 1 (by decide),
   (claim3_silent_truncation s3ex 0 [[1]] rfl).2.2⟩

/-!  Claim C4.  The line `self.models += (self.alpha_model,)` (and the
matching optimizer line) sits outside the `policy_only` branch, so a
`policy_only` configuration with `alpha == 'auto'` ends up with two
trainable modules and two optimizers. -/

/-- Concrete configuration for the C4 counterexample: `policy_only`
with the automatic entropy coefficient. -/
def a4ex : Args :=
  { policy_only := true, double_Q := false, target := false, alpha := "auto",
    delay_update := 1, tau := 1, deterministic_policy := false }

/-- C4 counterexample: with `policy_only = true` and `alpha = 'auto'`
the trainable-module tuple and the optimizer tuple both have two
entries, not exactly one. -/
theorem claim4_counterexample :
    (modelsList a4ex).length = 2 ∧ (optimizersList a4ex).length = 2 ∧
    (modelsList a4ex).length ≠ 1 := by
  decide

/-- C4 amended: for every `policy_only` configuration the trainable
modules are the policy alone when `alpha` is not `'auto'`, and the
policy plus the entropy-coefficient module when `alpha = 'auto'` (the
optimizer tuple matches positionally); in both cases the target-module
tuple is empty and no critic appears among the trainable modules. -/
theorem claim4_policy_only_group (a : Args) (hp : a.policy_only = true) :
    modelsList a = [Role.policy] ++ (if a.alpha = "auto" then [Role.alpha_model] else []) ∧
    optimizersList a = [Role.policy] ++ (if a.alpha = "auto" then [Role.alpha_model] else []) ∧
    targetModelsList a = [] ∧
    Role.Q1 ∉ modelsList a ∧ Role.Q2 ∉ modelsList a := by
  refine ⟨by simp [modelsList, hp], by simp [optimizersList, hp],
    by simp [targetModelsList, hp], ?_, ?_⟩ <;>
    by_cases ha : a.alpha = "auto" <;> simp [modelsList, hp, ha]

/-- C4 witness: the amended statement applied to the concrete
configuration `a4ex`. -/
theorem claim4_policy_only_group_witness :
    modelsList a4ex = [Role.policy] ++ (if a4ex.alpha = "auto" then [Role.alpha_model] else []) ∧
    optimizersList a4ex = [Role.policy] ++ (if a4ex.alpha = "auto" then [Role.alpha_model] else []) ∧
    targetModelsList a4ex = [] ∧
    Role.Q1 ∉ modelsList a4ex ∧ Role.Q2 ∉ modelsList a4ex :=
  claim4_policy_only_group a4ex rfl

/-!  Claim C5.  On a call with `iteration % delay_update != 0` in a
non-`policy_only` group, only the critic optimizers run (both of them
when `double_Q`, critic-1 alone otherwise); the policy optimizer, the
alpha optimizer and every target parameter are untouched. -/

/-- C5: for every non-`policy_only` group with a positive delay period,
a call whose iteration is not a multiple of `delay_update` leaves every
target-network parameter, the policy optimizer step counter and the
alpha optimizer step counter unchanged, advances the critic-1 optimizer
by exactly one step, and advances the critic-2 optimizer by exactly one
step precisely when `double_Q` is set. -/
theorem claim5_non_delayed_step (s : GroupState) (iteration : ℕ) (grads : Weights)
    (hp : s.args.policy_only = false) (_hpos : 0 < s.args.delay_update)
    (hmod : iteration % s.args.delay_update ≠ 0) :
    (apply_gradients s iteration grads).policy_target_w = s.policy_target_w ∧
    (apply_gradients s iteration grads).Q1_target_w = s.Q1_target_w ∧
    (apply_gradients s iteration grads).Q2_target_w = s.Q2_target_w ∧
    (apply_gradients s iteration grads).policy_opt_step = s.policy_opt_step ∧
    (apply_gradients s iteration grads).alpha_opt_step = s.alpha_opt_step ∧
    (apply_gradients s iteration grads).Q1_opt_step = s.Q1_opt_step + 1 ∧
    (apply_gradients s iteration grads).Q2_opt_step =
      (if s.args.double_Q = true then s.Q2_opt_step + 1 else s.Q2_opt_step) := by
  by_cases hd : s.args.double_Q = true <;>
    simp [apply_gradients, hp, hd, hmod, applyQ1Opt, applyQ2Opt]

/-- Concrete group for the C5 witness: twin critics with targets,
automatic alpha, delay period 2. -/
def s5ex : GroupState :=
  { args := { policy_only := false, double_Q := true, target := true,
              alpha := "auto", delay_update := 2, tau := 1,
              deterministic_policy := false },
    policy_w := [[1]], policy_target_w := [[2]], Q1_w := [[3]], Q1_target_w := [[3]],
    Q2_w := [[5]], Q2_target_w := [[5]], alpha_w := [[7]],
    policy_opt_step := 0, Q1_opt_step := 0, Q2_opt_step := 0, alpha_opt_step := 0 }

/-- C5 witness: the theorem applied to the concrete group `s5ex` at the
non-delayed iteration 1. -/
theorem claim5_non_delayed_step_witness :
    (apply_gradients s5ex 1 [[1], [1], [1]]).policy_target_w = s5ex.policy_target_w ∧
    (apply_gradients s5ex 1 [[1], [1], [1]]).Q1_target_w = s5ex.Q1_target_w ∧
    (apply_gradients s5ex 1 [[1], [1], [1]]).Q2_target_w = s5ex.Q2_target_w ∧
    (apply_gradients s5ex 1 [[1], [1], [1]]).policy_opt_step = s5ex.policy_opt_step ∧
    (apply_gradients s5ex 1 [[1], [1], [1]]).alpha_opt_step = s5ex.alpha_opt_step ∧
    (apply_gradients s5ex 1 [[1], [1], [1]]).Q1_opt_step = s5ex.Q1_opt_step + 1 ∧
    (apply_gradients s5ex 1 [[1], [1], [1]]).Q2_opt_step =
      (if s5ex.args.double_Q = true then s5ex.Q2_opt_step + 1 else s5ex.Q2_opt_step) :=
  claim5_non_delayed_step s5ex 1 [[1], [1], [1]] rfl (by decide) (by decide)

/-!  Claim C6.  In the deterministic branch of `_logits2action` the
action is `act_dist.mean()`, the first half of the logits, with no
`tanh` applied, and `logp` keeps its initial value `0`. -/

/-- C6: whenever the deterministic-policy flag is set, `compute_action`
returns the pre-squash mean (the first half of the policy network
output, with no `tanh` applied) together with the scalar constant 0 as
the log-probability. -/
theorem claim6_deterministic_action (policyNet : List ℝ → List ℝ) (a : Args)
    (obs sample : List ℝ) (h : a.deterministic_policy = true) :
    compute_action policyNet a obs sample =
      ((policyNet obs).take ((policyNet obs).length / 2), 0) := by
  simp [compute_action, logits2action, h]

/-- C6 witness: the theorem applied to a concrete two-logit network
output under a deterministic configuration. -/
theorem claim6_deterministic_action_witness :
    compute_action (fun _ => [1, 2])
        { policy_only := true, double_Q := false, target := false, alpha := "fixed",
          delay_update := 1, tau := 1, deterministic_policy := true } [0] [0] =
      (([1, 2] : List ℝ).take (([1, 2] : List ℝ).length / 2), 0) :=
  claim6_deterministic_action (fun _ => [1, 2])
    { policy_only := true, double_Q := false, target := false, alpha := "fixed",
      delay_update := 1, tau := 1, deterministic_policy := true } [0] [0] rfl

/-!  Claim C7.  The three target updaters share the blend
`tau * source + (1 - tau) * target`, applied elementwise to the tensor
pair at each position. -/

/-- C7: each target update writes, into the target field it owns, the
positional elementwise blend `tau * source + (1 - tau) * target` of the
live and target snapshots; on shape-matched snapshots the blend at rate
1 equals the source exactly and the blend at rate 0 leaves the target
exactly unchanged, so one `update_Q1_target` call with `tau = 1` makes
`Q1_target` equal `Q1` and with `tau = 0` leaves it unchanged (and
likewise for `Q2` and the policy by the same blend). -/
theorem claim7_soft_update (s : GroupState)
    (h : List.Forall₂ (fun u v => u.length = v.length) s.Q1_w s.Q1_target_w) :
    (update_Q1_target s).Q1_target_w = blend s.args.tau s.Q1_w s.Q1_target_w ∧
    (update_Q2_target s).Q2_target_w = blend s.args.tau s.Q2_w s.Q2_target_w ∧
    (update_policy_target s).policy_target_w =
      blend s.args.tau s.policy_w s.policy_target_w ∧
    (∀ i j, i < s.Q1_w.length → j < (s.Q1_w.getD i []).length →
      (((update_Q1_target s).Q1_target_w.getD i []).getD j 0 =
        s.args.tau * ((s.Q1_w.getD i []).getD j 0) +
          (1 - s.args.tau) * ((s.Q1_target_w.getD i []).getD j 0))) ∧
    (s.args.tau = 1 → (update_Q1_target s).Q1_target_w = s.Q1_w) ∧
    (s.args.tau = 0 → (update_Q1_target s).Q1_target_w = s.Q1_target_w) := by
  refine ⟨rfl, rfl, rfl, ?_, ?_, ?_⟩
  · intro i j hi hj
    exact blend_getD s.args.tau s.Q1_w s.Q1_target_w h i j hi hj
  · intro htau
    show blend s.args.tau s.Q1_w s.Q1_target_w = s.Q1_w
    rw [htau]
    exact blend_one s.Q1_w s.Q1_target_w h
  · intro htau
    show blend s.args.tau s.Q1_w s.Q1_target_w = s.Q1_target_w
    rw [htau]
    exact blend_zero s.Q1_w s.Q1_target_w h

/-- Concrete group for the C7 witness: `tau = 1` and shape-matched
critic-1 snapshots with different values. -/
def s7ex : GroupState :=
  { args := { policy_only := false, double_Q := false, target := true,
              alpha := "fixed", delay_update := 1, tau := 1,
              deterministic_policy := false },
    policy_w := [[1]], policy_target_w := [[2]], Q1_w := [[3, 4]], Q1_target_w := [[5, 6]],
    Q2_w := [[7]], Q2_target_w := [[8]], alpha_w := [[9]],
    policy_opt_step := 0, Q1_opt_step := 0, Q2_opt_step := 0, alpha_opt_step := 0 }

/-- C7 witness: the theorem applied to `s7ex`, with the elementwise
formula instantiated at tensor 0, entry 1, and the rate-1 consequence
instantiated (so one call makes `Q1_target` equal `Q1`). -/
theorem claim7_soft_update_witness :
    (update_Q1_target s7ex).Q1_target_w = blend s7ex.args.tau s7ex.Q1_w s7ex.Q1_target_w ∧
    ((update_Q1_target s7ex).Q1_target_w.getD 0 []).getD 1 0 =
      s7ex.args.tau * ((s7ex.Q1_w.getD 0 []).getD 1 0) +
        (1 - s7ex.args.tau) * ((s7ex.Q1_target_w.getD 0 []).getD 1 0) ∧
    (update_Q1_target s7ex).Q1_target_w = s7ex.Q1_w :=
  ⟨(claim7_soft_update s7ex (List.Forall₂.cons rfl List.Forall₂.nil)).1,
   (claim7_soft_update s7ex (List.Forall₂.cons rfl List.Forall₂.nil)).2.2.2.1
     0 1 (by decide) (by decide),
   (claim7_soft_update s7ex (List.Forall₂.cons rfl List.Forall₂.nil)).2.2.2.2.1 rfl⟩

/-!  Claim C8.  The assert `assert self.args.target` guards the
`double_Q` tuple assembly, but it sits inside the branch taken only
when `policy_only` is false: with `policy_only = true` the flag
combination `double_Q ∧ ¬target` is never checked and construction
succeeds. -/

/-- Concrete configuration for the C8 counterexample: `policy_only`
with `double_Q = true` and `target = false`. -/
def a8ex : Args :=
  { policy_only := true, double_Q := true, target := false, alpha := "fixed",
    delay_update := 1, tau := 1, deterministic_policy := false }

/-- C8 counterexample: a configuration with `double_Q = true` and
`target = false` whose construction succeeds — the assert is skipped
because `policy_only` is set, so construction does not fail for every
such configuration. -/
theorem claim8_counterexample :
    a8ex.double_Q = true ∧ a8ex.target = false ∧
    (init a8ex [] [] [] [] [] [] []).isSome = true := by
  decide

/-- C8 amended: for every configuration with `policy_only` false,
`double_Q` true and `target` false, construction fails deterministically
(the assert fires and no group state is produced). -/
theorem claim8_assert_fires (a : Args) (w1 w2 w3 w4 w5 w6 w7 : Weights)
    (hp : a.policy_only = false) (hd : a.double_Q = true) (ht : a.target = false) :
    init a w1 w2 w3 w4 w5 w6 w7 = none := by
  simp [init, hp, hd, ht]

/-- C8 witness: the amended statement applied to a concrete
non-`policy_only` configuration. -/
theorem claim8_assert_fires_witness :
    init { policy_only := false, double_Q := true, target := false, alpha := "fixed",
           delay_update := 1, tau := 1, deterministic_policy := false }
      [] [] [] [] [] [] [] = none :=
  claim8_assert_fires _ [] [] [] [] [] [] [] rfl rfl rfl

/-!  Claim C9.  `save_weights` builds the name-to-object dictionary of
the full group and hands it to the external checkpoint store at the
path `save_dir + '/ckpt_ite' + str(iteration)`; the store records it
under that path suffixed by the first-save counter `-1`, which is the
exact path `load_weights` restores from. -/

/-- C9: a save at `(save_dir, iteration)` stores the full group
dictionary under the key built from `save_dir ++ "/ckpt_ite" ++
iteration`, and a load at the same pair reads back exactly the stored
dictionary, whose name set is the trainable modules, then the target
modules, then every optimizer — the identically-named full group. -/
theorem claim9_round_trip (store : Store) (s : GroupState)
    (save_dir : String) (iteration : ℕ) :
    save_weights store s save_dir iteration =
      Store.save store (save_dir ++ "/ckpt_ite" ++ toString iteration) (ckptDict s) ∧
    load_weights (save_weights store s save_dir iteration) save_dir iteration =
      some (ckptDict s) ∧
    (ckptDict s).map Prod.fst =
      (modelsList s.args).map moduleName ++ (targetModelsList s.args).map moduleName
        ++ (optimizersList s.args).map optName := by
  refine ⟨rfl, ?_, by simp [ckptDict, Function.comp_def]⟩
  simp [load_weights, save_weights, Store.save, Store.restore, List.lookup]

/-!  Claim C10.  `get_weights` lists the trainable-module snapshots in
order followed by the target-module snapshots in order; `set_weights`
routes entry `i` to `models[i]` when `i < len(models)` and to
`target_models[i - len(models)]` otherwise, so applying it to a
`get_weights` snapshot restores every module. -/

/-- C10: `get_weights` returns the trainable-module snapshots in order
followed by the target-module snapshots in order, and `set_weights` is
a positional left inverse of it — feeding the snapshot back routes each
entry to the module it came from and leaves the whole group state
unchanged. -/
theorem claim10_set_get_inverse (s : GroupState) :
    get_weights s =
      (modelsList s.args).map (weightsOf s) ++ (targetModelsList s.args).map (weightsOf s) ∧
    set_weights s (get_weights s) = s := by
  refine ⟨rfl, ?_⟩
  by_cases hp : s.args.policy_only = true <;>
    by_cases hd : s.args.double_Q = true <;>
    by_cases ht : s.args.target = true <;>
    by_cases ha : s.args.alpha = "auto" <;>
    simp [set_weights, get_weights, modelsList, targetModelsList, setWeightsAux,
      setRoleWeights, weightsOf, hp, hd, ht, ha]

end PolicyWithQs
